import Mathlib

/-!
Shallow embedding of `relayer/chain/parachain/writer.go` from the
polkadot-ethereum repository: the parachain-to-Ethereum relay write loop.

Go channel semantics used in the model: a receive `v := <-ch` from a
*closed* channel completes immediately and yields the zero value (a nil
slice here), so a closed inbound channel is modelled as delivering
`LoopEvent.recv []` events; `for range ch` terminates when the channel is
closed, which is why the drain in `onDone` consumes exactly the remaining
batches.  The cancellation context is modelled by a `LoopEvent.done` event
carrying `ctx.Err()` and the batches still buffered on the channel before
the producer closes it.

External collaborators (the commitment message builder methods on
`parachain.BeefyCommitmentInfo`, the `lightclientbridge` contract binding,
and the Ethereum connection) are outside the provided source; they are
modelled as oracle functions, faithful to the boundary the source calls.
-/

namespace PolkadotEthereum

/-- writer.go line 25: `const LightClientBridgeContractID = "lightclientbridge"`. -/
def LightClientBridgeContractID : String := "lightclientbridge"

/-- A transaction hash (`common.Hash`), opaque here. -/
abbrev TxHash := Nat

/-- A Go `error` value, modelled by its message string. -/
abbrev Err := String

/-- An Ethereum address (`common.Address`), opaque here. -/
abbrev Address := Nat

/-- A submitted Ethereum transaction (`types.Transaction`); the source only
uses its hash. -/
structure Tx where
  hash : TxHash
deriving DecidableEq, Repr

/-- Modelled from the spec: the commitment lifecycle status enumeration of
`parachain.BeefyCommitmentInfo` (declared outside the provided source; the
four named constants appear in writer.go's dispatch switch).  `Other`
stands for any status value the switch's `default` branch catches. -/
inductive CommitmentStatus where
  | CommitmentWitnessed
  | InitialVerificationTxSent
  | InitialVerificationTxConfirmed
  | ReadyToComplete
  | Other (code : Nat)
deriving DecidableEq, Repr

/-- Modelled from the spec: the lifecycle record `parachain.BeefyCommitmentInfo`
(declared outside the provided source).  writer.go reads and writes only
`Status` and `InitialVerificationTxHash`; the opaque commitment `payload`
stands for every other field, which the writer never touches. -/
structure BeefyCommitmentInfo where
  status : CommitmentStatus
  payload : Nat
  initialVerificationTxHash : TxHash
deriving DecidableEq, Repr

/-- An inbound `chain.Message`: either the expected record type
`parachain.BeefyCommitmentInfo`, or a value of some other underlying type,
for which the type assertion `msg.(parachain.BeefyCommitmentInfo)` fails. -/
inductive Message where
  | beefy (info : BeefyCommitmentInfo)
  | other
deriving DecidableEq, Repr

/-- Builder output for the initial submission (field names as passed to
`contract.NewSignatureCommitment` in writer.go; contents opaque here). -/
structure NewSignatureCommitmentMessage where
  Payload : Nat
  ValidatorClaimsBitfield : Nat
  ValidatorSignatureCommitment : Nat
  ValidatorPublicKey : Nat
  ValidatorPublicKeyMerkleProof : Nat
deriving DecidableEq, Repr

/-- Builder output for the completion submission (field names as passed to
`contract.CompleteSignatureCommitment` in writer.go; contents opaque). -/
structure CompleteSignatureCommitmentMessage where
  ID : Nat
  Payload : Nat
  RandomSignatureCommitments : Nat
  RandomSignatureBitfieldPositions : Nat
  RandomValidatorAddresses : Nat
  RandomPublicKeyMerkleProofs : Nat
deriving DecidableEq, Repr

/-- `bind.TransactOpts` as writer.go builds it: sender, signing callback and
the hard-coded gas limit.  The cancellation context also placed in the
options is opaque to this model. -/
structure TransactOpts where
  fromAddress : Address
  signer : Address → Tx → Except Err Tx
  gasLimit : Nat

/-- Modelled from the spec: the contract binding
`lightclientbridge.Contract` (generated code outside the provided source),
exposing the two remote calls writer.go invokes.  Their outcomes are
oracle-determined. -/
structure Contract where
  newSignatureCommitment : TransactOpts → NewSignatureCommitmentMessage → Except Err Tx
  completeSignatureCommitment : TransactOpts → CompleteSignatureCommitmentMessage → Except Err Tx

/-- Modelled from the spec: the chain connection (`ethereum.Connection`,
outside the provided source): the key pair's address and the signing
operation `types.SignTx` with the connection's private key. -/
structure Connection where
  address : Address
  signTx : Tx → Except Err Tx

/-- Modelled from the spec: the commitment message builder — the two
builder methods on `parachain.BeefyCommitmentInfo` (outside the provided
source) that writer.go calls, as boundary oracles. -/
structure BuilderEnv where
  buildNewSignatureCommitmentMessage :
    BeefyCommitmentInfo → Except Err NewSignatureCommitmentMessage
  buildCompleteSignatureCommitmentMessage :
    BeefyCommitmentInfo → Except Err CompleteSignatureCommitmentMessage

/-- The `Writer` state writer.go's methods close over: the contract
registry, the connection, and (standing for the `parachain` package's
builder methods) the builder oracle. -/
structure Writer where
  contracts : String → Option Contract
  conn : Connection
  builder : BuilderEnv

/-- One observable logging call made by the source, by call site. -/
inductive LogEvent where
  | infoReceivedMsg
  | infoTxSubmitted (h : TxHash)
  | failedToSubmit (e : Err)
  | errorSubmitting (e : Err)
  | infoInvalidStatus
  | infoShuttingDown
  | debugDiscarded
deriving DecidableEq, Repr

/-- A destination-chain submission attempt: one call into the contract
binding, recorded whether or not the call succeeds. -/
inductive Submission where
  | initial (msg : NewSignatureCommitmentMessage)
  | complete (msg : CompleteSignatureCommitmentMessage)
deriving DecidableEq, Repr

/-- The externally observable effects of a run: records emitted on the
outbound `beefy` channel, logging calls, and contract submission attempts. -/
structure Effects where
  emitted : List BeefyCommitmentInfo
  logs : List LogEvent
  submissions : List Submission
deriving DecidableEq, Repr

def Effects.empty : Effects := ⟨[], [], []⟩

def Effects.append (a b : Effects) : Effects :=
  ⟨a.emitted ++ b.emitted, a.logs ++ b.logs, a.submissions ++ b.submissions⟩

def Effects.addLog (a : Effects) (l : LogEvent) : Effects :=
  { a with logs := a.logs ++ [l] }

/-- writer.go `signerFn`: sign the transaction with the connection's key,
ignoring the address argument. -/
def Writer.signerFn (wr : Writer) (_ : Address) (tx : Tx) : Except Err Tx :=
  wr.conn.signTx tx

/-- The `bind.TransactOpts` value writer.go constructs afresh for every
submission: sender address from the key pair, `signerFn`, gas limit 5000000. -/
def Writer.transactOpts (wr : Writer) : TransactOpts :=
  ⟨wr.conn.address, wr.signerFn, 5000000⟩

/-- writer.go `WriteNewSignatureCommitment` (lines 114-152): build the
initial message, look up the contract, submit, and on success emit a copy of
the record with `Status = InitialVerificationTxSent` and the transaction
hash attached.  Returns the Go error result plus the observable effects. -/
def Writer.WriteNewSignatureCommitment (wr : Writer) (beefyInfo : BeefyCommitmentInfo) :
    Except Err Unit × Effects :=
  let logs0 : List LogEvent := [.infoReceivedMsg]
  match wr.builder.buildNewSignatureCommitmentMessage beefyInfo with
  | .error e => (.error e, ⟨[], logs0, []⟩)
  | .ok msg =>
    match wr.contracts LightClientBridgeContractID with
    | none => (.error "Unknown contract", ⟨[], logs0, []⟩)
    | some contract =>
      match contract.newSignatureCommitment wr.transactOpts msg with
      | .error e => (.error e, ⟨[], logs0 ++ [.failedToSubmit e], [.initial msg]⟩)
      | .ok tx =>
        let updated : BeefyCommitmentInfo :=
          { beefyInfo with
            status := .InitialVerificationTxSent
            initialVerificationTxHash := tx.hash }
        (.ok (), ⟨[updated], logs0 ++ [.infoTxSubmitted tx.hash], [.initial msg]⟩)

/-- writer.go `WriteCompleteSignatureCommitment` (lines 154-187): build the
completion message, look up the contract, submit.  No record mutation and no
outbound emission on either outcome. -/
def Writer.WriteCompleteSignatureCommitment (wr : Writer) (beefyInfo : BeefyCommitmentInfo) :
    Except Err Unit × Effects :=
  let logs0 : List LogEvent := [.infoReceivedMsg]
  match wr.builder.buildCompleteSignatureCommitmentMessage beefyInfo with
  | .error e => (.error e, ⟨[], logs0, []⟩)
  | .ok msg =>
    match wr.contracts LightClientBridgeContractID with
    | none => (.error "Unknown contract", ⟨[], logs0, []⟩)
    | some contract =>
      match contract.completeSignatureCommitment wr.transactOpts msg with
      | .error e => (.error e, ⟨[], logs0 ++ [.failedToSubmit e], [.complete msg]⟩)
      | .ok tx =>
        (.ok (), ⟨[], logs0 ++ [.infoTxSubmitted tx.hash], [.complete msg]⟩)

/-- One iteration of writeLoop's inner `for _, msg := range msgs` body
(writer.go lines 78-101): the type assertion, then the status switch.
`Except.error e` means the loop returns with error `e`; `Except.ok ()`
means the loop moves on to the next record. -/
def Writer.processMessage (wr : Writer) (msg : Message) : Except Err Unit × Effects :=
  match msg with
  | .other => (.error "Invalid message", Effects.empty)
  | .beefy beefyInfo =>
    match beefyInfo.status with
    | .CommitmentWitnessed =>
      let res := wr.WriteNewSignatureCommitment beefyInfo
      match res.fst with
      | .error e => (.ok (), res.snd.addLog (.errorSubmitting e))
      | .ok _ => (.ok (), res.snd)
    | .InitialVerificationTxSent => (.ok (), Effects.empty)
    | .InitialVerificationTxConfirmed => (.ok (), Effects.empty)
    | .ReadyToComplete =>
      let res := wr.WriteCompleteSignatureCommitment beefyInfo
      match res.fst with
      | .error e => (.ok (), res.snd.addLog (.errorSubmitting e))
      | .ok _ => (.ok (), res.snd)
    | .Other _ => (.ok (), Effects.empty.addLog .infoInvalidStatus)

/-- writeLoop's inner loop over a received batch, in sequence order: stops
at the first record whose processing returns an error (only the failed type
assertion does), accumulating the effects produced so far. -/
def Writer.processBatch (wr : Writer) (msgs : List Message) : Except Err Unit × Effects :=
  match msgs with
  | [] => (.ok (), Effects.empty)
  | m :: rest =>
    let res := wr.processMessage m
    match res.fst with
    | .error e => (.error e, res.snd)
    | .ok _ =>
      let resRest := wr.processBatch rest
      (resRest.fst, res.snd.append resRest.snd)

/-- One observable event at writeLoop's `select`: either `ctx.Done()` fires
(carrying `ctx.Err()` and the batches still on the channel before the
producer closes it), or a batch is received from `wr.messages`.  A *closed*
inbound channel delivers `recv []` (a nil-slice receive). -/
inductive LoopEvent where
  | done (cancelErr : Err) (remaining : List (List Message))
  | recv (msgs : List Message)
deriving DecidableEq, Repr

/-- The loop's state after consuming a finite event trace: terminated with
the returned error, or still running. -/
inductive LoopOutcome where
  | terminated (e : Err)
  | running
deriving DecidableEq, Repr

/-- writer.go `onDone` (lines 63-70): log shutdown, drain (receive and
discard, with a Debug log per batch) every remaining inbound batch until the
channel is closed, then return `ctx.Err()`. -/
def onDone (cancelErr : Err) (remaining : List (List Message)) : Err × Effects :=
  (cancelErr, ⟨[], .infoShuttingDown :: remaining.map (fun _ => .debugDiscarded), []⟩)

/-- writer.go `writeLoop` (lines 72-104) over a finite trace of select
events.  An exhausted trace leaves the loop `running` (the real loop would
block awaiting the next event). -/
def Writer.writeLoop (wr : Writer) (events : List LoopEvent) : LoopOutcome × Effects :=
  match events with
  | [] => (.running, Effects.empty)
  | .done cancelErr remaining :: _ =>
    let res := onDone cancelErr remaining
    (.terminated res.fst, res.snd)
  | .recv msgs :: rest =>
    let res := wr.processBatch msgs
    match res.fst with
    | .error e => (.terminated e, res.snd)
    | .ok _ =>
      let resRest := wr.writeLoop rest
      (resRest.fst, res.snd.append resRest.snd)

/-- The configuration path writer.go reads:
`wr.config.Ethereum.Contracts.RelayBridgeLightClient`. -/
structure ContractsConfig where
  RelayBridgeLightClient : String

structure EthereumConfig where
  Contracts : ContractsConfig

structure Config where
  Ethereum : EthereumConfig

/-- Modelled from the spec: the startup boundary — `common.HexToAddress`
(total in Go: it never fails) and `lightclientbridge.NewContract` bound to
the connection's client, which may fail.  Both live outside the provided
source. -/
structure StartEnv where
  hexToAddress : String → Address
  newContract : Address → Except Err Contract

/-- writer.go `Start` (lines 48-61): construct one contract binding from
the configured address; on failure return the error before anything else
happens; on success store it in the registry under
`LightClientBridgeContractID` and spawn the write loop (`true` in the
result records that `eg.Go` ran).  The second component lists the addresses
at which a binding construction was attempted. -/
def Start (env : StartEnv) (config : Config) (contracts : String → Option Contract) :
    Except Err ((String → Option Contract) × Bool) × List Address :=
  let addr := env.hexToAddress config.Ethereum.Contracts.RelayBridgeLightClient
  match env.newContract addr with
  | .error e => (.error e, [addr])
  | .ok contract =>
    (.ok (fun id => if id = LightClientBridgeContractID then some contract else contracts id,
          true),
     [addr])

/-! Concrete sample instances used to exercise the model at closed inputs. -/

/-- A contract binding whose two calls both succeed deterministically. -/
def okContract : Contract :=
  { newSignatureCommitment := fun _ _ => .ok ⟨99⟩
    completeSignatureCommitment := fun _ _ => .ok ⟨77⟩ }

/-- A contract binding whose initial call succeeds and whose completion
call fails. -/
def failCompleteContract : Contract :=
  { newSignatureCommitment := fun _ _ => .ok ⟨99⟩
    completeSignatureCommitment := fun _ _ => .error "boom" }

def sampleConnection : Connection := ⟨11, fun tx => .ok tx⟩

/-- A builder that succeeds deterministically on both operations. -/
def sampleBuilder : BuilderEnv :=
  { buildNewSignatureCommitmentMessage := fun b => .ok ⟨b.payload, 1, 2, 3, 4⟩
    buildCompleteSignatureCommitmentMessage := fun b => .ok ⟨0, b.payload, 1, 2, 3, 4⟩ }

/-- A writer whose registry holds `okContract` under the fixed identifier. -/
def sampleWriter : Writer :=
  { contracts := fun id => if id = LightClientBridgeContractID then some okContract else none
    conn := sampleConnection
    builder := sampleBuilder }

/-- A writer whose registry has no entry at all (the unknown-contract case). -/
def emptyRegistryWriter : Writer :=
  { contracts := fun _ => none
    conn := sampleConnection
    builder := sampleBuilder }

/-- A writer whose completion submissions fail. -/
def failCompleteWriter : Writer :=
  { contracts := fun id =>
      if id = LightClientBridgeContractID then some failCompleteContract else none
    conn := sampleConnection
    builder := sampleBuilder }

def sampleConfig : Config := ⟨⟨⟨"0x1234"⟩⟩⟩

/-- A startup boundary whose binding construction fails. -/
def errStartEnv : StartEnv := ⟨fun _ => 0, fun _ => .error "bad address"⟩

/-! Helper lemmas about the effect algebra and the submission paths. -/

lemma Effects.empty_append (a : Effects) : Effects.empty.append a = a := by
  simp [Effects.append, Effects.empty]

lemma Effects.append_empty (a : Effects) : a.append Effects.empty = a := by
  simp [Effects.append, Effects.empty]

lemma Effects.append_assoc (a b c : Effects) :
    (a.append b).append c = a.append (b.append c) := by
  simp [Effects.append]

/-- Whenever `WriteNewSignatureCommitment` returns an error, nothing was
emitted on the outbound channel. -/
lemma writeNew_error_no_emit (wr : Writer) (b : BeefyCommitmentInfo) (e : Err)
    (h : (wr.WriteNewSignatureCommitment b).fst = .error e) :
    (wr.WriteNewSignatureCommitment b).snd.emitted = [] := by
  unfold Writer.WriteNewSignatureCommitment at h ⊢
  cases hb : wr.builder.buildNewSignatureCommitmentMessage b <;> simp [hb] at h ⊢
  case ok msg =>
    cases hc : wr.contracts LightClientBridgeContractID <;> simp [hc] at h ⊢
    case some contract =>
      cases ht : contract.newSignatureCommitment wr.transactOpts msg <;> simp [ht] at h ⊢

/-- Every record `WriteNewSignatureCommitment` emits carries status
`InitialVerificationTxSent` and the input record's payload. -/
lemma writeNew_emit_shape (wr : Writer) (b : BeefyCommitmentInfo) :
    ∀ r ∈ (wr.WriteNewSignatureCommitment b).snd.emitted,
      r.status = .InitialVerificationTxSent ∧ r.payload = b.payload := by
  unfold Writer.WriteNewSignatureCommitment
  cases hb : wr.builder.buildNewSignatureCommitmentMessage b <;> simp
  case ok msg =>
    cases hc : wr.contracts LightClientBridgeContractID <;> simp
    case some contract =>
      cases ht : contract.newSignatureCommitment wr.transactOpts msg <;> simp

/-- `WriteCompleteSignatureCommitment` never emits on the outbound channel. -/
lemma writeComplete_no_emit (wr : Writer) (b : BeefyCommitmentInfo) :
    (wr.WriteCompleteSignatureCommitment b).snd.emitted = [] := by
  unfold Writer.WriteCompleteSignatureCommitment
  cases hb : wr.builder.buildCompleteSignatureCommitmentMessage b <;> simp
  case ok msg =>
    cases hc : wr.contracts LightClientBridgeContractID <;> simp
    case some contract =>
      cases ht : contract.completeSignatureCommitment wr.transactOpts msg <;> simp

/-- Processing a record of the expected type never terminates the loop:
every error raised below the dispatch is absorbed and logged. -/
lemma processMessage_beefy_ok (wr : Writer) (b : BeefyCommitmentInfo) :
    (wr.processMessage (.beefy b)).fst = .ok () := by
  obtain ⟨s, p, hsh⟩ := b
  cases s <;> simp [Writer.processMessage]
  · cases hw : (wr.WriteNewSignatureCommitment ⟨.CommitmentWitnessed, p, hsh⟩).fst <;>
      simp [hw]
  · cases hw : (wr.WriteCompleteSignatureCommitment ⟨.ReadyToComplete, p, hsh⟩).fst <;>
      simp [hw]

/-- Batch processing distributes over an all-successful prefix. -/
lemma processBatch_ok_append (wr : Writer) (pre q : List Message)
    (h : (wr.processBatch pre).fst = .ok ()) :
    wr.processBatch (pre ++ q) =
      ((wr.processBatch q).fst, (wr.processBatch pre).snd.append (wr.processBatch q).snd) := by
  induction pre with
  | nil =>
    simp [Writer.processBatch, Effects.empty_append]
  | cons m rest ih =>
    cases hm : (wr.processMessage m).fst with
    | error e =>
      exfalso
      simp [Writer.processBatch, hm] at h
    | ok u =>
      have hrest : (wr.processBatch rest).fst = .ok () := by
        simpa [Writer.processBatch, hm] using h
      simp [Writer.processBatch, hm, ih hrest, Effects.append_assoc]

/-! Claim theorems. -/

/-- C1: for a record received with status `Witnessed` whose submission
succeeds (builder ok, contract registered, binding call ok with handle
`tx`), the engine continues the loop and emits exactly one record on the
outbound channel, whose status is `InitialVerificationTxSent`, whose
transaction handle equals the submitted transaction's hash, and whose
payload equals the input record's payload. -/
theorem C1_witnessed_success_emits_exactly_one
    (wr : Writer) (b : BeefyCommitmentInfo) (msg : NewSignatureCommitmentMessage)
    (contract : Contract) (tx : Tx)
    (hs : b.status = .CommitmentWitnessed)
    (hb : wr.builder.buildNewSignatureCommitmentMessage b = .ok msg)
    (hc : wr.contracts LightClientBridgeContractID = some contract)
    (ht : contract.newSignatureCommitment wr.transactOpts msg = .ok tx) :
    (wr.processMessage (.beefy b)).fst = .ok () ∧
    (wr.processMessage (.beefy b)).snd.emitted =
      [{ status := .InitialVerificationTxSent
         payload := b.payload
         initialVerificationTxHash := tx.hash }] := by
  have hw : wr.WriteNewSignatureCommitment b =
      (.ok (),
       ⟨[{ b with
           status := .InitialVerificationTxSent
           initialVerificationTxHash := tx.hash }],
        [.infoReceivedMsg, .infoTxSubmitted tx.hash], [.initial msg]⟩) := by
    simp [Writer.WriteNewSignatureCommitment, hb, hc, ht]
  simp [Writer.processMessage, hs, hw]

/-- C1 witness: a concrete `Witnessed` record through the all-succeeding
sample writer yields exactly the expected outbound record. -/
theorem C1_witness :
    (sampleWriter.processMessage (.beefy ⟨.CommitmentWitnessed, 5, 0⟩)).fst = .ok () ∧
    (sampleWriter.processMessage (.beefy ⟨.CommitmentWitnessed, 5, 0⟩)).snd.emitted =
      [{ status := .InitialVerificationTxSent
         payload := 5
         initialVerificationTxHash := 99 }] :=
  C1_witnessed_success_emits_exactly_one sampleWriter ⟨.CommitmentWitnessed, 5, 0⟩
    ⟨5, 1, 2, 3, 4⟩ okContract ⟨99⟩ rfl rfl rfl rfl

/-- C2: for a `Witnessed` record whose submission fails at any step, the
loop does not advance the record (nothing is emitted for it), the error is
absorbed so the loop continues with the next record, and in particular an
absent registry entry (after a successful build) produces exactly the
"Unknown contract" error. -/
theorem C2_witnessed_failure_no_emit_loop_continues
    (wr : Writer) (b : BeefyCommitmentInfo) (e : Err) (rest : List Message)
    (hs : b.status = .CommitmentWitnessed)
    (hfail : (wr.WriteNewSignatureCommitment b).fst = .error e) :
    (wr.processMessage (.beefy b)).fst = .ok () ∧
    (wr.processMessage (.beefy b)).snd.emitted = [] ∧
    (wr.processBatch (.beefy b :: rest)).fst = (wr.processBatch rest).fst ∧
    (wr.processBatch (.beefy b :: rest)).snd.emitted =
      (wr.processBatch rest).snd.emitted ∧
    (∀ m, wr.builder.buildNewSignatureCommitmentMessage b = .ok m →
       wr.contracts LightClientBridgeContractID = none →
       (wr.WriteNewSignatureCommitment b).fst = .error "Unknown contract") := by
  have hne := writeNew_error_no_emit wr b e hfail
  have hpm : (wr.processMessage (.beefy b)).fst = .ok () := processMessage_beefy_ok wr b
  have hpme : (wr.processMessage (.beefy b)).snd.emitted = [] := by
    simp [Writer.processMessage, hs, hfail, Effects.addLog, hne]
  refine ⟨hpm, hpme, ?_, ?_, ?_⟩
  · simp [Writer.processBatch, hpm]
  · simp [Writer.processBatch, hpm, Effects.append, hpme]
  · intro m hm hc
    simp [Writer.WriteNewSignatureCommitment, hm, hc]

/-- C2 witness: with an empty registry, a concrete `Witnessed` record fails
with "Unknown contract", emits nothing, and the loop moves on. -/
theorem C2_witness :
    (emptyRegistryWriter.processMessage (.beefy ⟨.CommitmentWitnessed, 5, 0⟩)).fst = .ok () ∧
    (emptyRegistryWriter.processMessage (.beefy ⟨.CommitmentWitnessed, 5, 0⟩)).snd.emitted
      = [] ∧
    (emptyRegistryWriter.processBatch [.beefy ⟨.CommitmentWitnessed, 5, 0⟩]).fst =
      (emptyRegistryWriter.processBatch []).fst ∧
    (emptyRegistryWriter.processBatch [.beefy ⟨.CommitmentWitnessed, 5, 0⟩]).snd.emitted =
      (emptyRegistryWriter.processBatch []).snd.emitted ∧
    (∀ m, emptyRegistryWriter.builder.buildNewSignatureCommitmentMessage
            ⟨.CommitmentWitnessed, 5, 0⟩ = .ok m →
       emptyRegistryWriter.contracts LightClientBridgeContractID = none →
       (emptyRegistryWriter.WriteNewSignatureCommitment
          ⟨.CommitmentWitnessed, 5, 0⟩).fst = .error "Unknown contract") :=
  C2_witnessed_failure_no_emit_loop_continues emptyRegistryWriter
    ⟨.CommitmentWitnessed, 5, 0⟩ "Unknown contract" [] rfl rfl

/-- C3: a record whose underlying type is not the expected record type
makes the write loop terminate at once with the "Invalid message" error;
the loop's total effects are exactly those of the records already processed
before it, so nothing after it — in its batch or in later batches — is
processed. -/
theorem C3_invalid_type_fatal
    (wr : Writer) (pre post : List Message) (rest : List LoopEvent)
    (hpre : (wr.processBatch pre).fst = .ok ()) :
    (wr.writeLoop (.recv (pre ++ .other :: post) :: rest)).fst =
      .terminated "Invalid message" ∧
    (wr.writeLoop (.recv (pre ++ .other :: post) :: rest)).snd =
      (wr.processBatch pre).snd := by
  have hbatch : wr.processBatch (pre ++ .other :: post) =
      (.error "Invalid message", (wr.processBatch pre).snd) := by
    have h := processBatch_ok_append wr pre (.other :: post) hpre
    simpa [Writer.processBatch, Writer.processMessage, Effects.append_empty] using h
  simp [Writer.writeLoop, hbatch]

/-- C3 witness: a batch holding one good record then a foreign-typed record
terminates the loop, leaving only the good record's effects. -/
theorem C3_witness :
    (sampleWriter.writeLoop
       [.recv ([.beefy ⟨.CommitmentWitnessed, 5, 0⟩] ++ .other ::
          [.beefy ⟨.CommitmentWitnessed, 6, 0⟩]),
        .recv [.beefy ⟨.CommitmentWitnessed, 7, 0⟩]]).fst =
      .terminated "Invalid message" ∧
    (sampleWriter.writeLoop
       [.recv ([.beefy ⟨.CommitmentWitnessed, 5, 0⟩] ++ .other ::
          [.beefy ⟨.CommitmentWitnessed, 6, 0⟩]),
        .recv [.beefy ⟨.CommitmentWitnessed, 7, 0⟩]]).snd =
      (sampleWriter.processBatch [.beefy ⟨.CommitmentWitnessed, 5, 0⟩]).snd :=
  C3_invalid_type_fatal sampleWriter [.beefy ⟨.CommitmentWitnessed, 5, 0⟩]
    [.beefy ⟨.CommitmentWitnessed, 6, 0⟩]
    [.recv [.beefy ⟨.CommitmentWitnessed, 7, 0⟩]] rfl

/-- C4 counterexample: the claim says closure of the inbound channel
(without cancellation) stops the loop.  It does not: writer.go receives
with `msgs := <-wr.messages` and never checks the closed flag, and a
receive from a closed Go channel completes immediately with a nil slice —
the `recv []` event here.  After the channel closes the loop is still
`running` (and stays so through repeated closed-channel receives), with no
termination. -/
theorem C4_counterexample :
    (sampleWriter.writeLoop [.recv []]).fst = .running ∧
    (sampleWriter.writeLoop [.recv [], .recv [], .recv []]).fst = .running :=
  ⟨rfl, rfl⟩

/-- C4 amended: the write loop runs until its cancellation context is
cancelled; closure of the inbound channel alone does not stop it — every
closed-channel receive yields an empty batch and the loop keeps iterating,
while a cancellation event terminates it with the context's error. -/
theorem C4_amended_runs_until_cancelled
    (wr : Writer) (n : Nat) (err : Err) (remaining : List (List Message)) :
    (wr.writeLoop (List.replicate n (.recv []))).fst = .running ∧
    (wr.writeLoop (.done err remaining :: List.replicate n (.recv []))).fst =
      .terminated err := by
  constructor
  · induction n with
    | zero => simp [Writer.writeLoop]
    | succ k ih =>
      simp [List.replicate_succ, Writer.writeLoop, Writer.processBatch, ih]
  · simp [Writer.writeLoop, onDone]

/-- C5: when cancellation fires, the loop drains every remaining inbound
batch — one discard log per batch, no emission and no submission for any of
them — and returns exactly the cancellation error as its terminal result,
regardless of any later events. -/
theorem C5_cancellation_drains_and_returns_ctx_error
    (wr : Writer) (cancelErr : Err) (remaining : List (List Message))
    (rest : List LoopEvent) :
    (wr.writeLoop (.done cancelErr remaining :: rest)).fst = .terminated cancelErr ∧
    (wr.writeLoop (.done cancelErr remaining :: rest)).snd.emitted = [] ∧
    (wr.writeLoop (.done cancelErr remaining :: rest)).snd.submissions = [] ∧
    (wr.writeLoop (.done cancelErr remaining :: rest)).snd.logs =
      .infoShuttingDown :: remaining.map (fun _ => .debugDiscarded) := by
  simp [Writer.writeLoop, onDone]

/-- C6: the status machine never regresses.  A record whose status is
neither `Witnessed` nor `ReadyToComplete` triggers no contract submission
and no emission; and every record the engine ever emits comes from a
`Witnessed` input and carries status `InitialVerificationTxSent` with the
input's payload — the only status write the engine performs. -/
theorem C6_status_never_regresses
    (wr : Writer) (b : BeefyCommitmentInfo) :
    ((b.status ≠ .CommitmentWitnessed ∧ b.status ≠ .ReadyToComplete) →
       (wr.processMessage (.beefy b)).snd.submissions = [] ∧
       (wr.processMessage (.beefy b)).snd.emitted = []) ∧
    (∀ r ∈ (wr.processMessage (.beefy b)).snd.emitted,
       b.status = .CommitmentWitnessed ∧
       r.status = .InitialVerificationTxSent ∧ r.payload = b.payload) := by
  obtain ⟨s, p, hsh⟩ := b
  cases s
  case CommitmentWitnessed =>
    refine ⟨fun h => absurd rfl h.1, ?_⟩
    intro r hr
    have hshape := writeNew_emit_shape wr ⟨.CommitmentWitnessed, p, hsh⟩
    have hr' : r ∈
        (wr.WriteNewSignatureCommitment ⟨.CommitmentWitnessed, p, hsh⟩).snd.emitted := by
      revert hr
      cases hw : (wr.WriteNewSignatureCommitment ⟨.CommitmentWitnessed, p, hsh⟩).fst <;>
        simp [Writer.processMessage, hw, Effects.addLog]
    exact ⟨rfl, (hshape r hr').1, (hshape r hr').2⟩
  case InitialVerificationTxSent =>
    exact ⟨fun _ => by simp [Writer.processMessage, Effects.empty],
           by simp [Writer.processMessage, Effects.empty]⟩
  case InitialVerificationTxConfirmed =>
    exact ⟨fun _ => by simp [Writer.processMessage, Effects.empty],
           by simp [Writer.processMessage, Effects.empty]⟩
  case ReadyToComplete =>
    refine ⟨fun h => absurd rfl h.2, ?_⟩
    intro r hr
    have hne := writeComplete_no_emit wr ⟨.ReadyToComplete, p, hsh⟩
    exfalso
    revert hr
    cases hw : (wr.WriteCompleteSignatureCommitment ⟨.ReadyToComplete, p, hsh⟩).fst <;>
      simp [Writer.processMessage, hw, Effects.addLog, hne]
  case Other n =>
    exact ⟨fun _ => by simp [Writer.processMessage, Effects.empty, Effects.addLog],
           by simp [Writer.processMessage, Effects.empty, Effects.addLog]⟩

/-- C6 witness: a confirmed-status record through the sample writer
triggers no submission and no emission. -/
theorem C6_witness :
    (sampleWriter.processMessage
       (.beefy ⟨.InitialVerificationTxConfirmed, 5, 0⟩)).snd.submissions = [] ∧
    (sampleWriter.processMessage
       (.beefy ⟨.InitialVerificationTxConfirmed, 5, 0⟩)).snd.emitted = [] :=
  (C6_status_never_regresses sampleWriter ⟨.InitialVerificationTxConfirmed, 5, 0⟩).1
    (by decide)

/-- C7: a record with status `InitialVerificationTxSent` or
`InitialVerificationTxConfirmed` produces no effect at all and no
termination; a record with an unrecognized status value logs exactly the
invalid-status diagnostic, performs no submission, emits nothing, and the
loop continues. -/
theorem C7_passive_statuses_and_unrecognized
    (wr : Writer) (b : BeefyCommitmentInfo) :
    ((b.status = .InitialVerificationTxSent ∨
        b.status = .InitialVerificationTxConfirmed) →
       wr.processMessage (.beefy b) = (.ok (), Effects.empty)) ∧
    (∀ n, b.status = .Other n →
       (wr.processMessage (.beefy b)).fst = .ok () ∧
       (wr.processMessage (.beefy b)).snd.logs = [.infoInvalidStatus] ∧
       (wr.processMessage (.beefy b)).snd.emitted = [] ∧
       (wr.processMessage (.beefy b)).snd.submissions = []) := by
  constructor
  · rintro (hs | hs) <;> simp [Writer.processMessage, hs]
  · intro n hs
    simp [Writer.processMessage, hs, Effects.addLog, Effects.empty]

/-- C7 witness: a sent-status record yields no effect; an unrecognized
status value (42) yields only the diagnostic log. -/
theorem C7_witness :
    sampleWriter.processMessage (.beefy ⟨.InitialVerificationTxSent, 5, 0⟩) =
      (.ok (), Effects.empty) ∧
    ((sampleWriter.processMessage (.beefy ⟨.Other 42, 5, 0⟩)).fst = .ok () ∧
     (sampleWriter.processMessage (.beefy ⟨.Other 42, 5, 0⟩)).snd.logs =
       [.infoInvalidStatus] ∧
     (sampleWriter.processMessage (.beefy ⟨.Other 42, 5, 0⟩)).snd.emitted = [] ∧
     (sampleWriter.processMessage (.beefy ⟨.Other 42, 5, 0⟩)).snd.submissions = []) :=
  ⟨(C7_passive_statuses_and_unrecognized sampleWriter
      ⟨.InitialVerificationTxSent, 5, 0⟩).1 (Or.inl rfl),
   (C7_passive_statuses_and_unrecognized sampleWriter ⟨.Other 42, 5, 0⟩).2 42 rfl⟩

/-- C8: a `ReadyToComplete` record never causes an outbound emission (the
completion path makes no local state change on success), never terminates
the loop; when the submit-complete call fails, exactly one failure log is
appended to the submission's own logs and nothing else changes; and the
loop goes on to accept further batches afterwards. -/
theorem C8_ready_to_complete_no_state_change
    (wr : Writer) (b : BeefyCommitmentInfo) (events : List LoopEvent)
    (hs : b.status = .ReadyToComplete) :
    (wr.processMessage (.beefy b)).snd.emitted = [] ∧
    (wr.processMessage (.beefy b)).fst = .ok () ∧
    (∀ e, (wr.WriteCompleteSignatureCommitment b).fst = .error e →
       (wr.processMessage (.beefy b)).snd.logs =
         (wr.WriteCompleteSignatureCommitment b).snd.logs ++ [.errorSubmitting e]) ∧
    (wr.writeLoop (.recv [.beefy b] :: events)).fst = (wr.writeLoop events).fst := by
  have hne := writeComplete_no_emit wr b
  have hok : (wr.processMessage (.beefy b)).fst = .ok () := processMessage_beefy_ok wr b
  refine ⟨?_, hok, ?_, ?_⟩
  · cases hw : (wr.WriteCompleteSignatureCommitment b).fst <;>
      simp [Writer.processMessage, hs, hw, Effects.addLog, hne]
  · intro e he
    simp [Writer.processMessage, hs, he, Effects.addLog]
  · simp [Writer.writeLoop, Writer.processBatch, hok]

/-- C8 witness: a concrete `ReadyToComplete` record with a failing binding
emits nothing, logs the failure, and leaves the loop running for the next
event. -/
theorem C8_witness :
    (failCompleteWriter.processMessage (.beefy ⟨.ReadyToComplete, 7, 0⟩)).snd.emitted
      = [] ∧
    (failCompleteWriter.processMessage (.beefy ⟨.ReadyToComplete, 7, 0⟩)).snd.logs =
      (failCompleteWriter.WriteCompleteSignatureCommitment
         ⟨.ReadyToComplete, 7, 0⟩).snd.logs ++ [.errorSubmitting "boom"] ∧
    (failCompleteWriter.writeLoop [.recv [.beefy ⟨.ReadyToComplete, 7, 0⟩]]).fst =
      (failCompleteWriter.writeLoop []).fst :=
  let h := C8_ready_to_complete_no_state_change failCompleteWriter
    ⟨.ReadyToComplete, 7, 0⟩ [] rfl
  ⟨h.1, h.2.2.1 "boom" rfl, h.2.2.2⟩

/-- C9: startup attempts exactly one binding construction, at the address
derived from the configured contract address.  If the construction fails,
`Start` aborts with that error (the registry is untouched and the loop is
not spawned, since the error result carries no registry and no loop flag);
if it succeeds, `Start` returns a registry holding the new binding under
the fixed identifier, unchanged elsewhere, with the write loop spawned —
so binding construction is the only startup-fatal condition. -/
theorem C9_startup_registry_population
    (env : StartEnv) (config : Config) (reg : String → Option Contract) :
    (Start env config reg).snd =
      [env.hexToAddress config.Ethereum.Contracts.RelayBridgeLightClient] ∧
    (∀ e, env.newContract
            (env.hexToAddress config.Ethereum.Contracts.RelayBridgeLightClient) =
          .error e →
       (Start env config reg).fst = .error e) ∧
    (∀ c, env.newContract
            (env.hexToAddress config.Ethereum.Contracts.RelayBridgeLightClient) =
          .ok c →
       ∃ reg2, (Start env config reg).fst = .ok (reg2, true) ∧
         reg2 LightClientBridgeContractID = some c ∧
         ∀ id, id ≠ LightClientBridgeContractID → reg2 id = reg id) := by
  refine ⟨?_, ?_, ?_⟩
  · unfold Start
    cases h : env.newContract
        (env.hexToAddress config.Ethereum.Contracts.RelayBridgeLightClient) <;> simp [h]
  · intro e he
    simp [Start, he]
  · intro c hc
    refine ⟨fun id => if id = LightClientBridgeContractID then some c else reg id,
      ?_, ?_, ?_⟩
    · simp [Start, hc]
    · simp
    · intro id hid
      simp [hid]

/-- C9 witness: a failing binding construction aborts startup with exactly
that error, after exactly one construction attempt at the configured
address. -/
theorem C9_witness :
    (Start errStartEnv sampleConfig (fun _ => none)).snd = [0] ∧
    (Start errStartEnv sampleConfig (fun _ => none)).fst = .error "bad address" :=
  ⟨(C9_startup_registry_population errStartEnv sampleConfig (fun _ => none)).1,
   (C9_startup_registry_population errStartEnv sampleConfig (fun _ => none)).2.1
     "bad address" rfl⟩

/-- C10: batch processing is not atomic under the fatal type error.  When a
batch is a successfully processed prefix, then a foreign-typed record, then
anything: the batch's processing returns the fatal error and its effects
are exactly the prefix's effects — the prefix's submissions and emissions
persist, while the foreign record and everything after it contribute
nothing. -/
theorem C10_batch_not_atomic_under_fatal
    (wr : Writer) (pre post : List Message)
    (hpre : (wr.processBatch pre).fst = .ok ()) :
    (wr.processBatch (pre ++ .other :: post)).fst = .error "Invalid message" ∧
    (wr.processBatch (pre ++ .other :: post)).snd = (wr.processBatch pre).snd := by
  have h := processBatch_ok_append wr pre (.other :: post) hpre
  constructor
  · simp [h, Writer.processBatch, Writer.processMessage]
  · simp [h, Writer.processBatch, Writer.processMessage, Effects.append_empty]

/-- C10 witness: with a one-record successful prefix, the poisoned batch
fails with the fatal error while the prefix's effects stand. -/
theorem C10_witness :
    (sampleWriter.processBatch
       ([.beefy ⟨.CommitmentWitnessed, 5, 0⟩] ++ .other ::
          [.beefy ⟨.CommitmentWitnessed, 6, 0⟩])).fst = .error "Invalid message" ∧
    (sampleWriter.processBatch
       ([.beefy ⟨.CommitmentWitnessed, 5, 0⟩] ++ .other ::
          [.beefy ⟨.CommitmentWitnessed, 6, 0⟩])).snd =
      (sampleWriter.processBatch [.beefy ⟨.CommitmentWitnessed, 5, 0⟩]).snd :=
  C10_batch_not_atomic_under_fatal sampleWriter
    [.beefy ⟨.CommitmentWitnessed, 5, 0⟩] [.beefy ⟨.CommitmentWitnessed, 6, 0⟩] rfl

end PolkadotEthereum
